import Mathlib

/-!
Verification of the `bubbles-neo` data-access layer (src/models/bubble.js and
its caller src/routes/bubbles.js) against its specification.

The JavaScript source is shallowly embedded:
* a JS string-or-absent value (`undefined`/`null`/string) is `Option String`,
  with JS falsiness of such a value captured by `jsFalsy`;
* a caller-supplied attribute object is a function `String → Option String`
  (reading an absent key yields `none`, as property access on a JS object);
* the `(err, results)` pair delivered to a `db.cypher` callback is
  `CypherOutcome`;
* thrown/propagated errors are the sum type `JsError`.  The classes
  `ValidationError` and `NotFoundError` live in `src/models/errors.js`, which
  is not part of the provided sources; their existence as distinct error kinds
  is modelled from the spec's error taxonomy (§7), while every place that
  *constructs* an error is translated from src/models/bubble.js itself.
-/

namespace Bubbles

/-- A structured error coming back from the Neo4j store.  The node-neo4j
driver classifies an error object from its structured status code: the error
is an instance of `neo4j.ClientError` exactly when the code starts with
`Neo.ClientError.`.  We therefore carry the code and derive the class. -/
structure StoreError where
  code : String
deriving DecidableEq, Repr

/-- `xs` is a prefix of `ys`, character by character. -/
def charsPrefix : List Char → List Char → Bool
  | [], _ => true
  | _ :: _, [] => false
  | a :: as, b :: bs => a == b && charsPrefix as bs

/-- `err instanceof neo4j.ClientError` in the driver's classification: the
status code starts with `Neo.ClientError.`. -/
def StoreError.isClientError (e : StoreError) : Bool :=
  charsPrefix "Neo.ClientError.".toList e.code.toList

/-- Errors observable from the model layer.  `validation` and `notFound` are
the classes from `src/models/errors.js` (modelled from the spec's taxonomy,
the file being absent from the sources); `generic` is a plain
`new Error(msg)`; `store` is a store error passed through unchanged;
`typeError` is a JavaScript runtime `TypeError` (e.g. calling a property that
is `undefined`). -/
inductive JsError where
  | validation (msg : String)
  | notFound (msg : String)
  | generic (msg : String)
  | store (e : StoreError)
  | typeError
deriving DecidableEq, Repr

/-- JS falsiness of a string-or-absent value: `undefined`, `null` and the
empty string are falsy; every non-empty string is truthy. -/
def jsFalsy : Option String → Bool
  | none => true
  | some s => s.isEmpty

/-- One entry of `Bubble.VALIDATION_INFO`.  `minLength`/`maxLength` are kept
as numbers whose JS truthiness is `≠ 0`, and `pattern` as the (optional)
regular-expression test, mirroring the guards
`if (info.minLength && ...)` etc. in `validateProp`. -/
structure ValidationInfo where
  required : Bool
  minLength : Nat
  maxLength : Nat
  pattern : Option (String → Bool)
  message : String

/-- The test of the regex `/^[A-Za-z0-9_]+$/`: at least one character, each a
letter, digit or underscore. -/
def titleCharOk (c : Char) : Bool :=
  c.isAlpha || c.isDigit || c == '_'

/-- `pattern.test(val)` for `/^[A-Za-z0-9_]+$/`. -/
def titlePatternTest (s : String) : Bool :=
  !s.isEmpty && s.toList.all titleCharOk

/-- `Bubble.VALIDATION_INFO['title']`. -/
def titleInfo : ValidationInfo :=
  { required := true
    minLength := 2
    maxLength := 55
    pattern := some titlePatternTest
    message := "2-55 characters; letters, numbers, and underscores only." }

/-- `Bubble.VALIDATION_INFO`: the recognized fields in declaration order. -/
def VALIDATION_INFO : List (String × ValidationInfo) :=
  [("title", titleInfo)]

/-- `validateProp(prop, val, required)` from src/models/bubble.js.  The
`info` record is the `VALIDATION_INFO` entry the JS function looks up by
`prop`.  Returns `.ok ()` when no exception is thrown. -/
def validateProp (prop : String) (info : ValidationInfo) (val : Option String)
    (required : Bool) : Except JsError Unit :=
  if jsFalsy val then
    if info.required && required then
      .error (.validation ("Missing " ++ prop ++ " (required)."))
    else
      .ok ()
  else
    let v := val.getD ""
    if info.minLength != 0 && v.length < info.minLength then
      .error (.validation
        ("Invalid " ++ prop ++ " (too short). Requirements: " ++ info.message))
    else if info.maxLength != 0 && v.length > info.maxLength then
      .error (.validation
        ("Invalid " ++ prop ++ " (too long). Requirements: " ++ info.message))
    else
      match info.pattern with
      | some test =>
          if !test v then
            .error (.validation
              ("Invalid " ++ prop ++ " (format). Requirements: " ++ info.message))
          else .ok ()
      | none => .ok ()

/-- The loop body of `validate`: walk the `VALIDATION_INFO` entries in order,
validate each, and collect `safeProps[prop] = props[prop]` (the key is set
even when the value is absent, as JS assignment of `undefined` does). -/
def validateFields (fields : List (String × ValidationInfo))
    (props : String → Option String) (required : Bool) :
    Except JsError (List (String × Option String)) :=
  match fields with
  | [] => .ok []
  | (prop, info) :: rest => do
      validateProp prop info (props prop) required
      let tail ← validateFields rest props required
      .ok ((prop, props prop) :: tail)

/-- `validate(props, required)` from src/models/bubble.js. -/
def validate (props : String → Option String) (required : Bool) :
    Except JsError (List (String × Option String)) :=
  validateFields VALIDATION_INFO props required

/-- `isConstraintViolation(err)` from src/models/bubble.js:
`err instanceof neo4j.ClientError && err.neo4j.code === 'Neo.ClientError.Schema.ConstraintViolation'`. -/
def isConstraintViolation (e : StoreError) : Bool :=
  e.isClientError && e.code == "Neo.ClientError.Schema.ConstraintViolation"

/-- A Neo4j node as seen by the model layer: an internal identity plus its
property map.  Properties absent from the map are absent on the node (a JS
read of them yields `undefined`). -/
structure Node where
  id : Nat
  properties : List (String × String)
deriving DecidableEq, Repr

/-- `node.properties[key]`. -/
def Node.prop (n : Node) (key : String) : Option String :=
  (n.properties.find? (fun kv => kv.1 == key)).map Prod.snd

/-- The bubble's `title` getter: `this._node.properties['title']`. -/
def Node.title (n : Node) : Option String :=
  n.prop "title"

/-- The `(err, results)` pair a `db.cypher` callback receives: either a store
error (with `results` unset) or a row list. -/
inductive CypherOutcome (ρ : Type) where
  | failure (e : StoreError)
  | success (rows : List ρ)
deriving DecidableEq, Repr

/-- The JSON serialization of a query-parameter property set: keys bound to
`undefined` are dropped from the wire format, every present string value
(including the empty string) is kept. -/
def serializeProps (l : List (String × Option String)) : List (String × String) :=
  l.filterMap (fun kv => kv.2.map (fun v => (kv.1, v)))

/-- The graph store's visible state: the `Bubble` nodes and the directed
`related` edges between them (by node identity). -/
structure GraphState where
  nodes : List Node
  edges : List (Nat × Nat)
  nextId : Nat
deriving DecidableEq, Repr

/-- `MATCH (bubble:Bubble {title: t})` under the store's uniqueness
constraint on `(Bubble, title)`: at most one node carries a given title, so
the match resolves to the first (only) node whose `title` property equals
`t`. -/
def GraphState.findByTitle (st : GraphState) (t : String) : Option Node :=
  st.nodes.find? (fun n => n.title == some t)

/-- The constraint-violation error the store raises when the uniqueness
constraint over `(Bubble, title)` is hit. -/
def constraintViolation : StoreError :=
  ⟨"Neo.ClientError.Schema.ConstraintViolation"⟩

/-- Store semantics of create's query
`CREATE (bubble:Bubble {props}) RETURN bubble`: the parameter set is JSON
serialized; if it carries a `title` already present on some node the
uniqueness constraint rejects the statement atomically, otherwise a fresh
node with exactly those properties is added and returned. -/
def runCreateQuery (st : GraphState) (props : List (String × Option String)) :
    CypherOutcome Node × GraphState :=
  let stored := serializeProps props
  let clash :=
    match (stored.find? (fun kv => kv.1 == "title")).map Prod.snd with
    | some t => (st.findByTitle t).isSome
    | none => false
  if clash then
    (.failure constraintViolation, st)
  else
    let n : Node := ⟨st.nextId, stored⟩
    (.success [n], { st with nodes := st.nodes ++ [n], nextId := st.nextId + 1 })

/-- Store semantics of patch's query
`MATCH (bubble:Bubble {title: t}) SET bubble += {props} RETURN bubble`:
zero matched rows yield an empty (successful) result; otherwise the matched
node's properties are overwritten key-by-key with the serialized parameter
set, the store rejecting atomically when the updated title collides with a
different node's title. -/
def runPatchQuery (st : GraphState) (t : String)
    (props : List (String × Option String)) : CypherOutcome Node × GraphState :=
  match st.findByTitle t with
  | none => (.success [], st)
  | some n =>
      let stored := serializeProps props
      let merged : List (String × String) :=
        stored ++ n.properties.filter
          (fun kv => !(stored.any (fun kv2 => kv2.1 == kv.1)))
      let n2 : Node := ⟨n.id, merged⟩
      let clash :=
        match n2.title with
        | some t2 => st.nodes.any (fun m => m.id != n.id && m.title == some t2)
        | none => false
      if clash then
        (.failure constraintViolation, st)
      else
        (.success [n2],
         { st with nodes := st.nodes.map (fun m => if m.id == n.id then n2 else m) })

/-- Store semantics of relate's query (match both titles, then
`MERGE (bubble) -[rel:related]-> (other)`): when both endpoints match, the
edge is added only if not already present; a failed match leaves the store
untouched and is not an error. -/
def runRelateQuery (st : GraphState) (thisTitle otherTitle : String) : GraphState :=
  match st.findByTitle thisTitle, st.findByTitle otherTitle with
  | some a, some b =>
      if (a.id, b.id) ∈ st.edges then st
      else { st with edges := st.edges ++ [(a.id, b.id)] }
  | _, _ => st

/-- Store semantics of unfollow's query (match both titles, then
`MATCH (bubble) -[rel:related]-> (other)` then `DELETE rel`): the matched
edge is deleted; when either endpoint or the edge is missing the match is
empty, nothing is deleted and no error is raised. -/
def runUnfollowQuery (st : GraphState) (thisTitle otherTitle : String) : GraphState :=
  match st.findByTitle thisTitle, st.findByTitle otherTitle with
  | some a, some b =>
      { st with edges := st.edges.filter (fun e => !(e == (a.id, b.id))) }
  | _, _ => st

/-- The error-translation step shared by `Bubble.create` and
`Bubble.prototype.patch`:
`if (isConstraintViolation(err)) err = new errors.ValidationError('The title ‘' + props.title + '’ is taken.')`.
`propsTitle` is the caller-supplied `props.title` (JS renders `undefined` as
the text `undefined` inside the template). -/
def translateStoreError (propsTitle : Option String) (e : StoreError) : JsError :=
  if isConstraintViolation e then
    .validation ("The title ‘" ++ propsTitle.getD "undefined" ++ "’ is taken.")
  else
    .store e

/-- The callback of `Bubble.create` applied to the store's response:
translate a constraint violation, pass any other error through, and on
success wrap `results[0]['bubble']` (an empty result list would crash with a
`TypeError`). -/
def createCallback (propsTitle : Option String) (resp : CypherOutcome Node) :
    Except JsError Node :=
  match resp with
  | .failure e => .error (translateStoreError propsTitle e)
  | .success [] => .error .typeError
  | .success (n :: _) => .ok n

/-- The whole of `Bubble.create(props, callback)` against a store state:
`validate(props)` (note: `required` is NOT passed, so it is `undefined`,
i.e. falsy) gates the query; on a validation error no query is issued;
otherwise the create query runs and its response goes through
`createCallback`.  Returns the outcome and the resulting store state. -/
def Bubble.create (st : GraphState) (props : String → Option String) :
    Except JsError Node × GraphState :=
  match validate props false with
  | .error e => (.error e, st)
  | .ok safeProps =>
      let (resp, st2) := runCreateQuery st safeProps
      (createCallback (props "title") resp, st2)

/-- The callback of `Bubble.prototype.patch` applied to the store's
response, together with the instance's `_node` snapshot handling: on any
error (translated or passed through) the callback returns the error and
`self._node` is untouched; on zero rows a plain
`new Error('Bubble has been deleted! Title: ' + self.title)` is returned and
the snapshot is untouched; otherwise the snapshot is replaced by
`results[0]['bubble']`.  The returned pair is (outcome, new `_node`). -/
def patchCallback (selfNode : Node) (propsTitle : Option String)
    (resp : CypherOutcome Node) : Except JsError Unit × Node :=
  match resp with
  | .failure e => (.error (translateStoreError propsTitle e), selfNode)
  | .success [] =>
      (.error (.generic
        ("Bubble has been deleted! Title: " ++ selfNode.title.getD "undefined")),
       selfNode)
  | .success (n :: _) => (.ok (), n)

/-- The whole of `bubble.patch(props, callback)` against a store state:
`validate(props)` with `required` absent (falsy); on success the
match-then-`SET bubble += {props}` query runs with
`{title: this.title, props: safeProps}` and the response goes through
`patchCallback`.  Returns (outcome, new `_node` snapshot, new store
state). -/
def Bubble.patch (st : GraphState) (selfNode : Node)
    (props : String → Option String) :
    Except JsError Unit × Node × GraphState :=
  match validate props false with
  | .error e => (.error e, selfNode, st)
  | .ok safeProps =>
      let (resp, st2) := runPatchQuery st (selfNode.title.getD "undefined") safeProps
      let (out, node2) := patchCallback selfNode (props "title") resp
      (out, node2, st2)

/-- The callback of `Bubble.get` applied to the store's response: a store
error is passed through unchanged; zero rows produce a plain
`new Error('No such bubble with title: ' + title)`; otherwise
`results[0]['bubble']` is wrapped. -/
def getCallback (title : String) (resp : CypherOutcome Node) :
    Except JsError Node :=
  match resp with
  | .failure e => .error (.store e)
  | .success [] => .error (.generic ("No such bubble with title: " ++ title))
  | .success (n :: _) => .ok n

/-- One row of `getRelatedToAndOthers`' result set: the candidate node
(`other`) and `COUNT(rel)` for the optional edge from the bubble to it. -/
structure RelRow where
  other : Node
  count : Nat
deriving DecidableEq, Repr

/-- The partitioning loop in `Bubble.prototype.getRelatedToAndOthers`:
a row whose node title equals the bubble's own title (JS `===` on the two
`title` getters, so two absent titles also compare equal) is skipped; a
truthy `COUNT(rel)` pushes the node onto `relatedTo`; anything else pushes
it onto `others`.  Push order is result-set order. -/
def partitionRows (selfTitle : Option String) :
    List RelRow → List Node × List Node
  | [] => ([], [])
  | row :: rest =>
      let p := partitionRows selfTitle rest
      if selfTitle == row.other.title then
        p
      else if row.count != 0 then
        (row.other :: p.1, p.2)
      else
        (p.1, row.other :: p.2)

/-- The method names defined on `Bubble.prototype` in src/models/bubble.js,
in source order. -/
def bubblePrototypeMethods : List String :=
  ["patch", "del", "relate", "unfollow", "getRelatedToAndOthers"]

/-- The method name the route handler `exports.unrelate` in
src/routes/bubbles.js invokes on the source bubble: `bubble.unrelate(other, ...)`. -/
def routesUnrelateInvokes : String :=
  "unrelate"

/-- Acceptance predicate of the spec's regex `^[A-Za-z0-9_]{2,55}$` (§3, §8),
written from the spec's words rather than from the source, for comparison
with the source's sequential length/pattern checks: 2 to 55 characters, each
a letter, digit or underscore. -/
def specTitleRegex (s : String) : Bool :=
  decide (2 ≤ s.length) && decide (s.length ≤ 55) && s.toList.all titleCharOk

/-- Whether an error is the `NotFoundError` class of the spec's taxonomy. -/
def JsError.isNotFound : JsError → Bool
  | .notFound _ => true
  | _ => false

end Bubbles

namespace Bubbles

/-! ### Helper lemmas -/

/-- `validate` reduces to validating the single recognized field `title` and,
on success, returning the one-entry property set `{title: props['title']}`. -/
theorem validate_eq (props : String → Option String) (req : Bool) :
    validate props req =
      match validateProp "title" titleInfo (props "title") req with
      | .error e => .error e
      | .ok _ => .ok [("title", props "title")] := by
  unfold validate validateFields VALIDATION_INFO
  cases h : validateProp "title" titleInfo (props "title") req with
  | error e => simp [h, Bind.bind, Except.bind]
  | ok u => cases u; simp [h, Bind.bind, Except.bind, validateFields]

/-- For a non-empty value, `validateProp` on the title runs the three checks
in order: minimum length, maximum length, pattern. -/
theorem validateProp_title_str (s : String) (req : Bool) (h : s.isEmpty = false) :
    validateProp "title" titleInfo (some s) req =
      if s.length < 2 then
        .error (.validation ("Invalid title (too short). Requirements: " ++ titleInfo.message))
      else if s.length > 55 then
        .error (.validation ("Invalid title (too long). Requirements: " ++ titleInfo.message))
      else if titlePatternTest s = false then
        .error (.validation ("Invalid title (format). Requirements: " ++ titleInfo.message))
      else
        .ok () := by
  unfold validateProp
  simp only [jsFalsy, h, Bool.false_eq_true, if_false, titleInfo, Option.getD]
  split_ifs with h1 h2 h3 h4 h5 h6 h7 <;> simp_all

/-- The constraint-violation test is equivalent to comparing the structured
status code, since that exact code carries the `Neo.ClientError.` prefix that
makes the driver classify the error as a `ClientError`. -/
theorem isConstraintViolation_eq_code (e : StoreError) :
    isConstraintViolation e = (e.code == "Neo.ClientError.Schema.ConstraintViolation") := by
  rcases e with ⟨c⟩
  unfold isConstraintViolation StoreError.isClientError
  by_cases h : c = "Neo.ClientError.Schema.ConstraintViolation"
  · subst h; decide
  · simp [h]

/-- `runRelateQuery`, unfolded at resolved endpoints. -/
theorem runRelateQuery_apply (st : GraphState) (aT bT : String) (a b : Node)
    (ha : st.findByTitle aT = some a) (hb : st.findByTitle bT = some b) :
    runRelateQuery st aT bT =
      if (a.id, b.id) ∈ st.edges then st
      else { st with edges := st.edges ++ [(a.id, b.id)] } := by
  unfold runRelateQuery
  rw [ha, hb]

/-- `runRelateQuery` is a no-op when the merged edge is already present. -/
theorem runRelateQuery_noop (st : GraphState) (aT bT : String) (a b : Node)
    (ha : st.findByTitle aT = some a) (hb : st.findByTitle bT = some b)
    (hmem : (a.id, b.id) ∈ st.edges) : runRelateQuery st aT bT = st := by
  rw [runRelateQuery_apply st aT bT a b ha hb, if_pos hmem]

/-- `runRelateQuery` never changes the node table. -/
theorem runRelateQuery_nodes (st : GraphState) (aT bT : String) :
    (runRelateQuery st aT bT).nodes = st.nodes := by
  unfold runRelateQuery
  cases st.findByTitle aT <;> cases st.findByTitle bT <;>
    simp only [] <;> first
      | rfl
      | (split_ifs <;> rfl)

/-! ### Claims -/

/-- C1: the claim says `Bubble.create` validates with `requireAll = true`, so
that an absent title fails with ValidationError "Missing title (required)."
before any store query.  In the source, `Bubble.create` calls
`validate(props)` with the `required` argument omitted (hence falsy): an
absent title passes validation, the CREATE query is issued with an empty
serialized property set, a node is persisted and returned — no
ValidationError.  The third conjunct shows the `required = true` path the
claim (and `validate`'s own comment) prescribes does produce exactly the
claimed error. -/
theorem C1_create_skips_required_validation :
    validate (fun _ => none) false = .ok [("title", none)] ∧
    Bubble.create ⟨[], [], 0⟩ (fun _ => none) = (.ok ⟨0, []⟩, ⟨[⟨0, []⟩], [], 1⟩) ∧
    validate (fun _ => none) true = .error (.validation "Missing title (required).") :=
  ⟨rfl, rfl, rfl⟩

/-- C3: the claim says every title value persisted by create or patch is a
string of 2–55 word characters.  Counter-evaluation: the empty string is JS
falsy, so `validateProp` skips all checks on it, yet `validate` still places
it in the property set and JSON serialization keeps it; `create({title: ""})`
persists a node whose title is `""`, and `patch({title: ""})` on an existing
node overwrites its title with `""` — both violating the 2–55/pattern
invariant (`specTitleRegex "" = false`). -/
theorem C3_empty_title_persisted :
    Bubble.create ⟨[], [], 0⟩ (fun k => if k == "title" then some "" else none) =
      (.ok ⟨0, [("title", "")]⟩, ⟨[⟨0, [("title", "")]⟩], [], 1⟩) ∧
    Bubble.patch ⟨[⟨0, [("title", "Alpha")]⟩], [], 1⟩ ⟨0, [("title", "Alpha")]⟩
        (fun k => if k == "title" then some "" else none) =
      (.ok (), ⟨0, [("title", "")]⟩, ⟨[⟨0, [("title", "")]⟩], [], 1⟩) ∧
    specTitleRegex "" = false :=
  ⟨rfl, rfl, rfl⟩

/-- C9: the claim says `unrelate(bubble, other)`, as invoked by the caller,
issues the match-then-delete query.  The route handler `exports.unrelate`
invokes `bubble.unrelate(...)`, but `Bubble.prototype` defines no method of
that name (the edge-deleting method is called `unfollow`), so the invocation
hits `undefined` and throws a TypeError before any query is issued. -/
theorem C9_route_invokes_missing_method :
    routesUnrelateInvokes ∉ bubblePrototypeMethods ∧
    "unfollow" ∈ bubblePrototypeMethods := by
  decide

/-- C4 counterexample: on a zero-row response, `Bubble.get`'s callback
produces a plain generic `Error` (`new Error(...)`), not a `NotFoundError`
as the claim states. -/
theorem C4_counterexample_generic :
    getCallback "Alpha" (.success []) =
      .error (.generic "No such bubble with title: Alpha") ∧
    (JsError.generic "No such bubble with title: Alpha").isNotFound = false :=
  ⟨rfl, rfl⟩

/-- C4 (amended): `get(title)` fails with a plain generic Error whose message
is "No such bubble with title: <title>" exactly when the store returns zero
rows; a store error is passed through unchanged; and a non-empty result set
yields a Bubble wrapping the first returned node. -/
theorem C4_get_zero_rows_generic :
    ∀ (title : String) (rows : List Node),
    (getCallback title (.success rows) =
        .error (.generic ("No such bubble with title: " ++ title)) ↔ rows = []) ∧
    (∀ n rest, rows = n :: rest → getCallback title (.success rows) = .ok n) ∧
    (∀ e, getCallback title (.failure e) = .error (.store e)) := by
  intro title rows
  refine ⟨?_, ?_, fun e => rfl⟩
  · cases rows with
    | nil => simp [getCallback]
    | cons n rest => simp [getCallback]
  · rintro n rest rfl
    rfl

/-- C4 witness: the amended claim applied at title "Alpha" and an empty
result set. -/
theorem C4_get_zero_rows_generic_witness :
    getCallback "Alpha" (.success []) =
      .error (.generic "No such bubble with title: Alpha") :=
  (C4_get_zero_rows_generic "Alpha" []).1.mpr rfl

/-- C5 counterexample: the translated uniqueness-violation message uses
typographic quotes `‘…’` in the source, not the straight quotes `'…'` the
claim quotes. -/
theorem C5_counterexample_quotes :
    createCallback (some "Alpha") (.failure constraintViolation) =
      .error (.validation "The title ‘Alpha’ is taken.") ∧
    ("The title ‘Alpha’ is taken." : String) ≠ "The title 'Alpha' is taken." :=
  ⟨rfl, by decide⟩

/-- C5 (amended): for both create and patch, a store error is translated to
ValidationError "The title ‘<title>’ is taken." exactly when its structured
code identifies a uniqueness-constraint violation (the test on the error
class plus code equals a plain comparison of the code); every other store
error is passed to the caller unchanged. -/
theorem C5_constraint_translation :
    ∀ (pt : Option String) (e : StoreError) (selfNode : Node),
    (isConstraintViolation e =
      (e.code == "Neo.ClientError.Schema.ConstraintViolation")) ∧
    (isConstraintViolation e = true →
      createCallback pt (.failure e) =
        .error (.validation ("The title ‘" ++ pt.getD "undefined" ++ "’ is taken.")) ∧
      (patchCallback selfNode pt (.failure e)).1 =
        .error (.validation ("The title ‘" ++ pt.getD "undefined" ++ "’ is taken."))) ∧
    (isConstraintViolation e = false →
      createCallback pt (.failure e) = .error (.store e) ∧
      (patchCallback selfNode pt (.failure e)).1 = .error (.store e)) := by
  intro pt e selfNode
  refine ⟨isConstraintViolation_eq_code e, fun h => ?_, fun h => ?_⟩ <;>
    exact ⟨by simp [createCallback, translateStoreError, h],
           by simp [patchCallback, translateStoreError, h]⟩

/-- C5 witness: the amended claim applied at a concrete constraint-violation
error with title "Alpha". -/
theorem C5_constraint_translation_witness :
    createCallback (some "Alpha") (.failure constraintViolation) =
      .error (.validation "The title ‘Alpha’ is taken.") ∧
    (patchCallback ⟨0, [("title", "Alpha")]⟩ (some "Alpha")
        (.failure constraintViolation)).1 =
      .error (.validation "The title ‘Alpha’ is taken.") :=
  (C5_constraint_translation (some "Alpha") constraintViolation
    ⟨0, [("title", "Alpha")]⟩).2.1 (by decide)

/-- C2 counterexample: the empty string violates the minimum-length rule
(and the pattern), yet `validate` accepts it when `required` is false,
because JS falsiness makes `validateProp` skip every check on it. -/
theorem C2_counterexample_empty_title :
    validate (fun _ => some "") false = .ok [("title", some "")] ∧
    ("" : String).length < 2 ∧
    specTitleRegex "" = false :=
  ⟨rfl, by decide, rfl⟩

/-- C2 (amended): for every NON-EMPTY title, `validate` accepts it exactly
when it matches `^[A-Za-z0-9_]{2,55}$`, and rejects violations with the
first failing check in the fixed order minimum length, maximum length,
pattern.  (An empty title is treated as absent: skipped when `required` is
false, "Missing title (required)." when true.) -/
theorem C2_validate_title_characterization (s : String) (req : Bool) (h : s ≠ "") :
    (validate (fun _ => some s) req = .ok [("title", some s)] ↔
      specTitleRegex s = true) ∧
    (s.length < 2 →
      validate (fun _ => some s) req =
        .error (.validation ("Invalid title (too short). Requirements: " ++ titleInfo.message))) ∧
    (s.length > 55 →
      validate (fun _ => some s) req =
        .error (.validation ("Invalid title (too long). Requirements: " ++ titleInfo.message))) ∧
    (2 ≤ s.length → s.length ≤ 55 → s.toList.all titleCharOk = false →
      validate (fun _ => some s) req =
        .error (.validation ("Invalid title (format). Requirements: " ++ titleInfo.message))) := by
  have hE : s.isEmpty = false := by
    rw [Bool.eq_false_iff]
    intro hv
    exact h ((String.isEmpty_iff s).mp hv)
  have hP : titlePatternTest s = s.toList.all titleCharOk := by
    simp [titlePatternTest, hE]
  rw [validate_eq, validateProp_title_str s req hE, hP]
  refine ⟨?_, fun h1 => ?_, fun h2 => ?_, fun h1 h2 h3 => ?_⟩
  · split_ifs with h1 h2 h3
    · constructor
      · intro hEq
        exact absurd hEq (by simp)
      · intro hR
        simp only [specTitleRegex, Bool.and_eq_true, decide_eq_true_eq] at hR
        omega
    · constructor
      · intro hEq
        exact absurd hEq (by simp)
      · intro hR
        simp only [specTitleRegex, Bool.and_eq_true, decide_eq_true_eq] at hR
        omega
    · constructor
      · intro hEq
        exact absurd hEq (by simp)
      · intro hR
        simp only [specTitleRegex, Bool.and_eq_true, decide_eq_true_eq] at hR
        exact Bool.false_ne_true (h3 ▸ hR.2)
    · constructor
      · intro _
        simp only [specTitleRegex, Bool.and_eq_true, decide_eq_true_eq]
        refine ⟨⟨by omega, by omega⟩, ?_⟩
        cases hall : s.toList.all titleCharOk
        · exact absurd hall h3
        · rfl
      · intro _
        rfl
  · rw [if_pos h1]
  · rw [if_neg (by omega), if_pos h2]
  · rw [if_neg (by omega), if_neg (by omega), if_pos h3]

/-- C2 witness: the amended claim applied at the concrete title "Hi". -/
theorem C2_validate_title_characterization_witness :
    validate (fun _ => some "Hi") true = .ok [("title", some "Hi")] :=
  ((C2_validate_title_characterization "Hi" true (by decide)).1).mpr (by decide)

/-- C6: a zero-row patch response happens exactly on a failed title match
(the store answers success with an empty row list); the callback then fails
with the plain Error "Bubble has been deleted! Title: <title>" and leaves the
in-memory `_node` snapshot unchanged; the snapshot is likewise unchanged on
any store error; and a non-empty response replaces the snapshot with the
node the store returned. -/
theorem C6_patch_deleted_keeps_snapshot (selfNode : Node) (pt : Option String) :
    (∀ (st : GraphState) (t : String) (props : List (String × Option String)),
      st.findByTitle t = none → runPatchQuery st t props = (.success [], st)) ∧
    patchCallback selfNode pt (.success []) =
      (.error (.generic
        ("Bubble has been deleted! Title: " ++ selfNode.title.getD "undefined")),
       selfNode) ∧
    (∀ e, (patchCallback selfNode pt (.failure e)).2 = selfNode) ∧
    (∀ n rest, patchCallback selfNode pt (.success (n :: rest)) = (.ok (), n)) := by
  refine ⟨fun st t props hmatch => ?_, rfl, fun e => rfl, fun n rest => rfl⟩
  unfold runPatchQuery
  rw [hmatch]

/-- C6 witness: the claim applied at a concrete snapshot, with the zero-row
case exercised on an empty store. -/
theorem C6_patch_deleted_keeps_snapshot_witness :
    runPatchQuery ⟨[], [], 0⟩ "Gone" [] = (.success [], ⟨[], [], 0⟩) ∧
    patchCallback ⟨0, [("title", "Alpha")]⟩ none (.success []) =
      (.error (.generic "Bubble has been deleted! Title: Alpha"),
       ⟨0, [("title", "Alpha")]⟩) :=
  ⟨(C6_patch_deleted_keeps_snapshot ⟨0, [("title", "Alpha")]⟩ none).1
      ⟨[], [], 0⟩ "Gone" [] rfl,
   (C6_patch_deleted_keeps_snapshot ⟨0, [("title", "Alpha")]⟩ none).2.1⟩

/-- C7: the partitioning loop of `getRelatedToAndOthers` is exactly the
specified partition of the result set: `relatedTo` collects (in order) the
rows whose title differs from the bubble's own and whose edge count is
non-zero, `others` the rows whose title differs and whose count is zero, and
together they carry every non-self row exactly once (the lengths of the two
lists add up to the number of non-self rows). -/
theorem C7_partition_characterization (t : Option String) (rows : List RelRow) :
    (partitionRows t rows).1 =
      (rows.filter (fun r => !(t == r.other.title) && r.count != 0)).map RelRow.other ∧
    (partitionRows t rows).2 =
      (rows.filter (fun r => !(t == r.other.title) && !(r.count != 0))).map RelRow.other ∧
    (partitionRows t rows).1.length + (partitionRows t rows).2.length =
      (rows.filter (fun r => !(t == r.other.title))).length := by
  induction rows with
  | nil => exact ⟨rfl, rfl, rfl⟩
  | cons row rest ih =>
    obtain ⟨ih1, ih2, ih3⟩ := ih
    rw [ih1, ih2] at ih3
    simp only [List.length_map] at ih3
    by_cases hskip : (t == row.other.title)
    · refine ⟨?_, ?_, ?_⟩ <;>
        simp [partitionRows, List.filter_cons, hskip, ih1, ih2] <;>
        omega
    · by_cases hcnt : (row.count != 0)
      · refine ⟨?_, ?_, ?_⟩ <;>
          simp [partitionRows, List.filter_cons, hskip, hcnt, ih1, ih2] <;>
          omega
      · refine ⟨?_, ?_, ?_⟩ <;>
          simp [partitionRows, List.filter_cons, hskip, hcnt, ih1, ih2] <;>
          omega

/-- C8: `relate` is idempotent.  If the store resolves both titles (to nodes
`a` and `b`) and holds at most one `related` edge from `a` to `b`, then
running relate's match-then-MERGE query twice gives the same state as
running it once, and that state holds exactly one edge from `a` to `b`. -/
theorem C8_relate_idempotent (st : GraphState) (aT bT : String) (a b : Node)
    (ha : st.findByTitle aT = some a) (hb : st.findByTitle bT = some b)
    (hc : List.count (a.id, b.id) st.edges ≤ 1) :
    runRelateQuery (runRelateQuery st aT bT) aT bT = runRelateQuery st aT bT ∧
    List.count (a.id, b.id) (runRelateQuery (runRelateQuery st aT bT) aT bT).edges = 1 := by
  have happ := runRelateQuery_apply st aT bT a b ha hb
  have hfa : (runRelateQuery st aT bT).findByTitle aT = some a := by
    unfold GraphState.findByTitle at ha ⊢
    rw [runRelateQuery_nodes]
    exact ha
  have hfb : (runRelateQuery st aT bT).findByTitle bT = some b := by
    unfold GraphState.findByTitle at hb ⊢
    rw [runRelateQuery_nodes]
    exact hb
  have hmem : (a.id, b.id) ∈ (runRelateQuery st aT bT).edges := by
    rw [happ]
    by_cases hm : (a.id, b.id) ∈ st.edges
    · rw [if_pos hm]; exact hm
    · rw [if_neg hm]; simp
  have hcount : List.count (a.id, b.id) (runRelateQuery st aT bT).edges = 1 := by
    rw [happ]
    by_cases hm : (a.id, b.id) ∈ st.edges
    · rw [if_pos hm]
      have hpos := List.count_pos_iff.mpr hm
      omega
    · rw [if_neg hm]
      simp [List.count_append, List.count_eq_zero.mpr hm]
  have hsecond := runRelateQuery_noop (runRelateQuery st aT bT) aT bT a b hfa hfb hmem
  exact ⟨hsecond, by rw [hsecond]; exact hcount⟩

/-- C8 witness: the claim applied to a concrete two-node store with no
edges. -/
theorem C8_relate_idempotent_witness :
    runRelateQuery
        (runRelateQuery ⟨[⟨0, [("title", "Alpha")]⟩, ⟨1, [("title", "Beta")]⟩], [], 2⟩
          "Alpha" "Beta") "Alpha" "Beta" =
      runRelateQuery ⟨[⟨0, [("title", "Alpha")]⟩, ⟨1, [("title", "Beta")]⟩], [], 2⟩
        "Alpha" "Beta" ∧
    List.count ((0 : Nat), (1 : Nat))
      (runRelateQuery
        (runRelateQuery ⟨[⟨0, [("title", "Alpha")]⟩, ⟨1, [("title", "Beta")]⟩], [], 2⟩
          "Alpha" "Beta") "Alpha" "Beta").edges = 1 :=
  C8_relate_idempotent ⟨[⟨0, [("title", "Alpha")]⟩, ⟨1, [("title", "Beta")]⟩], [], 2⟩
    "Alpha" "Beta" ⟨0, [("title", "Alpha")]⟩ ⟨1, [("title", "Beta")]⟩
    rfl rfl (by decide)

/-- C10: a successful `validate` returns the property set whose keys are
exactly the recognized fields (`VALIDATION_INFO`'s keys, i.e. just `title`),
each bound to the caller's value unchanged — including a `title` key bound
to an absent value when the caller supplied none. -/
theorem C10_validate_passthrough (props : String → Option String) (req : Bool)
    (l : List (String × Option String)) (h : validate props req = .ok l) :
    l.map Prod.fst = VALIDATION_INFO.map Prod.fst ∧
    l = VALIDATION_INFO.map (fun kv => (kv.1, props kv.1)) := by
  rw [validate_eq] at h
  cases hv : validateProp "title" titleInfo (props "title") req with
  | error e =>
      rw [hv] at h
      exact absurd h (by simp)
  | ok u =>
      rw [hv] at h
      simp only [Except.ok.injEq] at h
      subst h
      exact ⟨rfl, rfl⟩

/-- C10 witness: the claim applied to an empty attribute set — the result
still carries a `title` entry, with an absent value. -/
theorem C10_validate_passthrough_witness :
    ([("title", (none : Option String))]).map Prod.fst = VALIDATION_INFO.map Prod.fst ∧
    [("title", (none : Option String))] =
      VALIDATION_INFO.map (fun kv => (kv.1, (fun _ => (none : Option String)) kv.1)) :=
  C10_validate_passthrough (fun _ => none) false [("title", none)] rfl

end Bubbles
